import Mathlib

/-!
Verification of the restaurant-data cleaning and aggregation pipeline
(`src/main.py`).  The pandas `DataFrame` is embedded shallowly: a table is a
record of named columns, a column is a list of scalar values, and each
pipeline function of the script becomes a Lean function over these records.
Fallible Python code becomes `Except`-valued; the Python exceptions that the
script raises or lets escape are the constructors of `PyError`.
-/

/-- A scalar held by a raw pandas column: a string, an integer, a boolean or
a missing value (`NaN`). -/
inductive PyVal where
  | str (s : String)
  | int (n : Int)
  | bool (b : Bool)
  | na
  deriving DecidableEq, Repr

/-- The Python exceptions relevant to the script: `DataProcessingError`
(declared in `main.py`), and the built-in `KeyError`, `ValueError` and
`AttributeError` that pandas operations can raise. -/
inductive PyError where
  | dataProcessingError (msg : String)
  | keyError (msg : String)
  | valueError (msg : String)
  | attributeError (msg : String)
  deriving DecidableEq, Repr

deriving instance DecidableEq for Except

/-- Python `str.lower()` restricted to the character-wise lowering that
`Char.toLower` performs. -/
def pyLower (s : String) : String :=
  String.mk (s.data.map Char.toLower)

/-- Python `str.strip()`: drop leading and trailing whitespace. -/
def pyStrip (s : String) : String :=
  String.mk (((s.data.dropWhile Char.isWhitespace).reverse.dropWhile
    Char.isWhitespace).reverse)

/-- Python `str.replace(',', '')` as used on the review-count column:
remove every comma. -/
def removeCommas (s : String) : String :=
  String.mk (s.data.filter (fun c => !(c == ',')))

/-- Lexicographic comparison of character lists by code point. -/
def charLeB : List Char → List Char → Bool
  | [], _ => true
  | _ :: _, [] => false
  | a :: as, b :: bs => if a < b then true else if b < a then false else charLeB as bs

/-- The string order `groupby` and `sort` use on keys: lexicographic by code
point. -/
def strLeB (a b : String) : Bool :=
  charLeB a.data b.data

/-- Value of a decimal digit string (most significant first). -/
def natOfDigits (cs : List Char) : Nat :=
  cs.foldl (fun a c => a * 10 + (c.toNat - 48)) 0

/-- Split an optional leading sign off a character list, returning the sign
as `1` or `-1`. -/
def splitSign : List Char → Int × List Char
  | '-' :: rest => (-1, rest)
  | '+' :: rest => (1, rest)
  | cs => (1, cs)

/-- `pd.to_numeric` on a single string, for the decimal integer and
fixed-point literals the dataset contains (optional sign, digits, optional
fractional part).  Scientific notation is not modelled; strings outside this
grammar give `none`, which the callers coerce to `NaN` and then fill with 0,
exactly as `errors='coerce'` followed by `fillna(0)` does. -/
def parseNumeric (s : String) : Option Rat :=
  let p := splitSign (pyStrip s).data
  let sgn : Int := p.1
  let intPart := p.2.takeWhile Char.isDigit
  let rest := p.2.dropWhile Char.isDigit
  match rest with
  | [] =>
      if intPart.isEmpty then none
      else some ((sgn * (natOfDigits intPart : Int) : Int) : Rat)
  | '.' :: frac =>
      if frac.all Char.isDigit && !(intPart.isEmpty && frac.isEmpty) then
        some ((sgn : Rat) *
          ((natOfDigits intPart : Rat) +
            (natOfDigits frac : Rat) / ((10 ^ frac.length : Nat) : Rat)))
      else none
  | _ => none

/-- `astype(int)` on a float: truncation toward zero. -/
def ratTruncToInt (r : Rat) : Int :=
  Int.tdiv r.num (Int.ofNat r.den)

/-- Python `str(x)` for the scalars of a column (`astype(str)` applies it
elementwise; `NaN` prints as `"nan"`). -/
def pyStr : PyVal → String
  | .str s => s
  | .int n => toString n
  | .bool b => if b then "True" else "False"
  | .na => "nan"

/-- The per-value review-count repair of `clean_data`:
`pd.to_numeric(col.astype(str).str.replace(',', ''), errors='coerce')
.fillna(0).astype(int)`. -/
def cleanReviewVal (v : PyVal) : Int :=
  match parseNumeric (removeCommas (pyStr v)) with
  | some r => ratTruncToInt r
  | none => 0

/-- The per-value online-order normalization of `clean_data`:
`fillna("No")` then `lambda x: x.strip().lower() == "yes"`.  A scalar that is
not a string and not `NaN` has no `.strip` attribute, so the lambda raises
`AttributeError`. -/
def cleanOnlineVal (v : PyVal) : Except PyError Bool :=
  match v with
  | .na => .ok (pyLower (pyStrip "No") == "yes")
  | .str s => .ok (pyLower (pyStrip s) == "yes")
  | .int _ => .error (.attributeError "int object has no attribute strip")
  | .bool _ => .error (.attributeError "bool object has no attribute strip")

/-- The per-value category normalization of `clean_data`:
`astype(str).str.strip()`. -/
def cleanCatagoryVal (v : PyVal) : String :=
  pyStrip (pyStr v)

/-- `Series.apply` with a fallible element function: apply elementwise from
the front, propagating the first exception. -/
def applyE (f : α → Except PyError β) : List α → Except PyError (List β)
  | [] => .ok []
  | a :: as =>
    match f a with
    | .error e => .error e
    | .ok b =>
      match applyE f as with
      | .error e => .error e
      | .ok bs => .ok (b :: bs)

/-- A raw loaded table.  Each column the script ever reads is either present
(with one scalar per row) or absent, mirroring `'col' in df.columns`.
`nrows` is the number of rows of the frame (`len(df)`), which governs the
broadcast `df['Online Order'] = False`.  The popular-food column is the
text-or-missing column described by the data model. -/
structure RawTable where
  nrows : Nat
  numberOfReview? : Option (List PyVal)
  onlineOrder? : Option (List PyVal)
  catagory? : Option (List PyVal)
  popularFood? : Option (List (Option String))
  title? : Option (List PyVal)
  reveiwComment? : Option (List PyVal)
  reviewComment? : Option (List PyVal)
  deriving DecidableEq, Repr

/-- The canonical table produced by `clean_data`: review counts are
integers, online-order flags are booleans, categories are stripped strings;
the columns `clean_data` does not touch pass through unchanged. -/
structure CleanTable where
  numberOfReview : List Int
  onlineOrder : List Bool
  catagory : List String
  popularFood? : Option (List (Option String))
  title? : Option (List PyVal)
  reviewComment? : Option (List PyVal)
  deriving DecidableEq, Repr

/-- Body of `clean_data`, in the statement order of the source: rename the
misspelled review-comment header, repair the review counts (raising
`DataProcessingError` when the column is absent), normalize the online-order
flags (substituting an all-`False` column when absent), strip the categories
(raising `DataProcessingError` when absent). -/
def cleanBody (t : RawTable) : Except PyError CleanTable :=
  let rc := match t.reveiwComment? with
    | some c => some c
    | none => t.reviewComment?
  match t.numberOfReview? with
  | none => .error (.dataProcessingError "Missing required column: 'Number of review'.")
  | some nrcol =>
    match (match t.onlineOrder? with
           | some col => applyE cleanOnlineVal col
           | none => .ok (List.replicate t.nrows false)) with
    | .error e => .error e
    | .ok oo =>
      match t.catagory? with
      | none => .error (.dataProcessingError "Missing required column: 'Catagory'.")
      | some ccol =>
        .ok { numberOfReview := nrcol.map cleanReviewVal
              onlineOrder := oo
              catagory := ccol.map cleanCatagoryVal
              popularFood? := t.popularFood?
              title? := t.title?
              reviewComment? := rc }

/-- The `except` clauses of `clean_data`: only `KeyError` and `ValueError`
are rewrapped as `DataProcessingError`; every other exception escapes
unchanged. -/
def translateCleanError : PyError → PyError
  | .keyError m => .dataProcessingError ("Missing expected column: " ++ m)
  | .valueError m => .dataProcessingError ("Data conversion failure: " ++ m)
  | e => e

/-- `clean_data` of `main.py`. -/
def clean_data (t : RawTable) : Except PyError CleanTable :=
  match cleanBody t with
  | .ok c => .ok c
  | .error e => .error (translateCleanError e)

/-- The pandas dtype of a column, at the granularity the validator's guards
inspect: `int64`, `float64`, `bool`, or `object` (the dtype of string
columns and of mixed columns). -/
inductive Dtype where
  | intDt
  | floatDt
  | boolDt
  | objDt
  deriving DecidableEq, Repr

/-- `pd.api.types.is_numeric_dtype`: integer, float and bool dtypes are
numeric. -/
def isNumericDtype : Dtype → Bool
  | .intDt => true
  | .floatDt => true
  | .boolDt => true
  | .objDt => false

/-- `pd.api.types.is_string_dtype`: true exactly for `object` dtype (the
dtype pandas gives string columns). -/
def isStringDtype : Dtype → Bool
  | .objDt => true
  | _ => false

/-- A dynamically typed pandas column: a dtype tag plus the scalars. -/
structure DynCol where
  dtype : Dtype
  vals : List PyVal
  deriving DecidableEq, Repr

/-- A post-cleaning frame as `validate_data_types` sees it: the two
mandatory columns it dereferences unconditionally, and the online-order
column it guards with `'Online Order' in df.columns`. -/
structure DynTable where
  numberOfReview : DynCol
  catagory : DynCol
  onlineOrder? : Option DynCol
  deriving DecidableEq, Repr

/-- `pd.to_numeric(x, errors='coerce')` on one scalar (no comma stripping
here: the validator coerces the raw scalar directly). -/
def toNumericCoerceVal : PyVal → Option Rat
  | .int n => some (n : Rat)
  | .bool b => some (if b then 1 else 0)
  | .str s => parseNumeric s
  | .na => none

/-- The validator's review-count repair:
`pd.to_numeric(col, errors='coerce').fillna(0).astype(int)`. -/
def reCoerceReviewVal (v : PyVal) : PyVal :=
  .int (match toNumericCoerceVal v with
        | some r => ratTruncToInt r
        | none => 0)

/-- `bool(x)` as `astype(bool)` applies it elementwise: booleans unchanged,
integers compare against 0, strings against the empty string, and `NaN` is
truthy. -/
def astypeBoolVal : PyVal → PyVal
  | .bool b => .bool b
  | .int n => .bool (!(n == 0))
  | .str s => .bool (!(s == ""))
  | .na => .bool true

/-- `if not is_numeric_dtype: to_numeric(...).fillna(0).astype(int)` on the
review-count column. -/
def validateReviewCol (c : DynCol) : DynCol :=
  if isNumericDtype c.dtype then c
  else { dtype := .intDt, vals := c.vals.map reCoerceReviewVal }

/-- `if not is_string_dtype: astype(str)` on the category column;
`astype(str)` yields an `object`-dtype column of strings. -/
def validateCatagoryCol (c : DynCol) : DynCol :=
  if isStringDtype c.dtype then c
  else { dtype := .objDt, vals := c.vals.map (fun v => .str (pyStr v)) }

/-- Unconditional `astype(bool)` on the online-order column. -/
def astypeBoolCol (c : DynCol) : DynCol :=
  { dtype := .boolDt, vals := c.vals.map astypeBoolVal }

/-- `validate_data_types` of `main.py`: re-coerce review counts when their
dtype is not numeric, re-coerce categories when their dtype is not
string-like, and force the online-order column to bool when present. -/
def validate_data_types (t : DynTable) : DynTable :=
  { numberOfReview := validateReviewCol t.numberOfReview
    catagory := validateCatagoryCol t.catagory
    onlineOrder? := t.onlineOrder?.map astypeBoolCol }

/-! ## SchemaValidator: `ensure_required_columns` -/

/-- Text of the `DataProcessingError` raised for missing columns; it
interpolates the whole list of missing names. -/
def missingColumnsMessage (missing : List String) : String :=
  "Missing required columns: " ++ toString missing

/-- `ensure_required_columns` of `main.py`; `cols` stands for `df.columns`.
The comprehension collects every required column absent from the frame, and
the error reports that full list. -/
def ensure_required_columns (cols : List String) (required : List String) :
    Except PyError Unit :=
  if (required.filter (fun c => !(cols.contains c))).isEmpty then .ok ()
  else .error (.dataProcessingError (missingColumnsMessage
    (required.filter (fun c => !(cols.contains c)))))

/-- Result payload of one analysis operation (the series, row or table the
operation computes before handing it to chart rendering / CSV writing, which
are external collaborators). -/
inductive AnalysisResult where
  | ranked (xs : List (String × Int))
  | onlineMeans (xs : List (Bool × Rat))
  | histo (counts : List Nat) (median : Option Rat)
  | dishes (xs : List (String × String))
  | topRowIdx (i : Nat)
  | shares (xs : List (String × Int × Rat))
  | perCategoryRows (rows : List (PyVal × String × Int))
  | unavailable (msg : String)
  deriving DecidableEq, Repr

/-- `df.groupby('Catagory')['Number of review'].sum()`: one entry per
distinct category, keys in ascending order (`groupby` sorts its keys), each
paired with the sum of the review counts of its rows. -/
def groupSumReviews (df : CleanTable) : List (String × Int) :=
  (List.insertionSort (fun a b : String => strLeB a b = true) df.catagory.dedup).map
    (fun k => (k,
      (((df.catagory.zip df.numberOfReview).filter (fun p => p.1 == k)).map
        (fun p => p.2)).sum))

/-- `Series.sort_values(ascending=False)` with the script's default
`kind='quicksort'`: a reordering of the series that is descending in the
values.  numpy's introsort does not specify the relative order of equal
values, so only properties that hold for *every* descending reordering —
sortedness, length, the multiset of entries — are read off this model; the
insertion sort here realizes one such reordering. -/
def sortValuesDesc (l : List (String × Int)) : List (String × Int) :=
  List.insertionSort (fun a b : String × Int => b.2 ≤ a.2) l

/-- The series behind the `analyze_categories` bar chart: the grouped sums
sorted descending, first 10 entries. -/
def top_categories_data (df : CleanTable) : List (String × Int) :=
  (sortValuesDesc (groupSumReviews df)).take 10

/-- `analyze_categories` of `main.py` (the chart artifact carries exactly
`top_categories_data`). -/
def analyze_categories (df : CleanTable) : Except PyError AnalysisResult :=
  .ok (.ranked (top_categories_data df))

/-- `Series.mean()` over the review counts of one group. -/
def listMeanRat (l : List Int) : Rat :=
  (l.sum : Rat) / (l.length : Rat)

/-- The review counts of the rows whose online-order flag is `false`. -/
def falseGroupVals (df : CleanTable) : List Int :=
  ((df.onlineOrder.zip df.numberOfReview).filter (fun p => p.1 == false)).map
    (fun p => p.2)

/-- The review counts of the rows whose online-order flag is `true`. -/
def trueGroupVals (df : CleanTable) : List Int :=
  ((df.onlineOrder.zip df.numberOfReview).filter (fun p => p.1 == true)).map
    (fun p => p.2)

/-- `df.groupby('Online Order')['Number of review'].mean()`: one bucket per
online-order value that actually occurs, `False` before `True`; a value with
no rows contributes no bucket. -/
def onlineGroupMeans (df : CleanTable) : List (Bool × Rat) :=
  (if (falseGroupVals df).isEmpty then []
   else [(false, listMeanRat (falseGroupVals df))]) ++
  (if (trueGroupVals df).isEmpty then []
   else [(true, listMeanRat (trueGroupVals df))])

/-- `analyze_online_orders` of `main.py`: the grouped means; rendering pairs
them with the two fixed labels, and with zero groups the length-0 value
array cannot broadcast against the two labels, so `plt.bar` raises
`ValueError`. -/
def analyze_online_orders (df : CleanTable) : Except PyError AnalysisResult :=
  if (onlineGroupMeans df).isEmpty then
    .error (.valueError "shape mismatch: objects cannot be broadcast to a single shape")
  else .ok (.onlineMeans (onlineGroupMeans df))

/-- `np.median` over the review counts: middle element of the ascending
sort, or the mean of the two middle elements; `NaN` (modelled `none`) on an
empty column. -/
def medianRat (l : List Int) : Option Rat :=
  if l.isEmpty then none
  else
    let s := List.insertionSort (fun a b : Int => a ≤ b) l
    let n := l.length
    if n % 2 = 1 then some ((s.getD (n / 2) 0 : Int) : Rat)
    else some (((s.getD (n / 2 - 1) 0 + s.getD (n / 2) 0 : Int) : Rat) / 2)

/-- `np.histogram(l, bins=20)` bucket counts: 20 bins linear over
`[min, max]` (widened by 0.5 on each side when `min = max`, numpy's rule),
half-open except the last, which is closed. -/
def histogram20 (l : List Int) : List Nat :=
  match l with
  | [] => List.replicate 20 0
  | x :: xs =>
    let lo0 : Rat := ((xs.foldl min x : Int) : Rat)
    let hi0 : Rat := ((xs.foldl max x : Int) : Rat)
    let lo := if lo0 == hi0 then lo0 - (1 : Rat) / 2 else lo0
    let hi := if lo0 == hi0 then hi0 + (1 : Rat) / 2 else hi0
    (List.range 20).map (fun i =>
      let a := lo + (hi - lo) * (i : Rat) / 20
      let b := lo + (hi - lo) * ((i : Rat) + 1) / 20
      (l.filter (fun v =>
        decide (a ≤ (v : Rat)) &&
          (if i = 19 then decide ((v : Rat) ≤ b) else decide ((v : Rat) < b)))).length)

/-- `review_distribution` of `main.py`: the histogram of the review counts
plus their median. -/
def review_distribution (df : CleanTable) : Except PyError AnalysisResult :=
  .ok (.histo (histogram20 df.numberOfReview) (medianRat df.numberOfReview))

/-- `Series.mode()` followed by `.iloc[0]`: among the values of maximal
multiplicity (missing values dropped), `mode` returns them in ascending
sorted order, so `.iloc[0]` is the smallest; `none` when there are no
values. -/
def modeFirst? (l : List String) : Option String :=
  (List.insertionSort (fun a b : String => strLeB a b = true)
    (l.dedup.filter (fun v => l.all (fun w => decide (l.count w ≤ l.count v))))).head?

/-- The popular-food values of one category's rows, missing values
dropped (`mode` ignores `NaN`). -/
def groupFoodVals (df : CleanTable) (food : List (Option String)) (k : String) :
    List String :=
  ((df.catagory.zip food).filter (fun p => p.1 == k)).filterMap (fun p => p.2)

/-- The series written by `popular_dishes_by_category`: per category (keys
ascending), the first mode of its popular-food values, or `"No data"` when
the group has none. -/
def popular_dishes_data (df : CleanTable) (food : List (Option String)) :
    List (String × String) :=
  (List.insertionSort (fun a b : String => strLeB a b = true) df.catagory.dedup).map
    (fun k => (k, (modeFirst? (groupFoodVals df food k)).getD "No data"))

/-- `popular_dishes_by_category` of `main.py`: with the optional column
absent it only logs a warning (reported here as `unavailable`), raising
nothing. -/
def popular_dishes_by_category (df : CleanTable) : Except PyError AnalysisResult :=
  match df.popularFood? with
  | some food => .ok (.dishes (popular_dishes_data df food))
  | none => .ok (.unavailable "Column 'Popular food' missing, cannot determine popular dishes.")

/-- `Series.idxmax`: position of the first occurrence of the maximum;
`ValueError` on an empty series. -/
def idxmax? (l : List Int) : Option Nat :=
  match l with
  | [] => none
  | x :: xs =>
    some ((xs.foldl
      (fun (st : Nat × Int × Nat) v =>
        if st.2.1 < v then (st.2.2 + 1, v, st.2.2 + 1) else (st.1, st.2.1, st.2.2 + 1))
      ((0 : Nat), x, (0 : Nat))).1)

/-- `top_reviewed_restaurant` of `main.py`: the row at
`df['Number of review'].idxmax()` (the artifact is that single row; the
result records its position). -/
def top_reviewed_restaurant (df : CleanTable) : Except PyError AnalysisResult :=
  match idxmax? df.numberOfReview with
  | some i => .ok (.topRowIdx i)
  | none => .error (.valueError "attempt to get argmax of an empty sequence")

/-- `combined_reviews.sum()`: the grand total of the grouped review-count
sums, i.e. over all categories. -/
def totalReviews (df : CleanTable) : Int :=
  ((sortValuesDesc (groupSumReviews df)).map (fun p => p.2)).sum

/-- The series behind `analyze_category_combinations`: every category with
its summed review count and its percentage of the grand total; percentages
are computed for the whole series even though the chart shows only the
first 10 bars. -/
def categoryShares (df : CleanTable) : List (String × Int × Rat) :=
  (sortValuesDesc (groupSumReviews df)).map
    (fun p => (p.1, p.2, ((p.2 : Rat) / (totalReviews df : Rat)) * 100))

/-- `analyze_category_combinations` of `main.py`. -/
def analyze_category_combinations (df : CleanTable) : Except PyError AnalysisResult :=
  .ok (.shares (categoryShares df))

/-- `df.groupby('Catagory')[cols].apply(lambda x: x.nlargest(n, 'Number of
review'))`: per category (keys ascending), the group's rows sorted
descending by review count, ties kept in original order (`nlargest` keeps
first occurrences), truncated to `n`. -/
def top_restaurants_data (df : CleanTable) (titles : List PyVal) (n : Nat) :
    List (PyVal × String × Int) :=
  ((List.insertionSort (fun a b : String => strLeB a b = true) df.catagory.dedup).map
    (fun k =>
      (List.insertionSort (fun a b : PyVal × String × Int => b.2.2 ≤ a.2.2)
        ((titles.zip (df.catagory.zip df.numberOfReview)).filter
          (fun r => r.2.1 == k))).take n)).flatten

/-- `top_restaurants_by_category` of `main.py`: selecting the
`['Title', 'Catagory', 'Number of review']` columns raises `KeyError` when
`Title` is absent (the batch loop catches it). -/
def top_restaurants_by_category (df : CleanTable) (n : Nat) :
    Except PyError AnalysisResult :=
  match df.title? with
  | none => .error (.keyError "Title")
  | some titles => .ok (.perCategoryRows (top_restaurants_data df titles n))

/-- The `analysis_functions` list of `execute_analyses_sequential`, each
entry tagged with the Python function's name. -/
def analysisCatalog (topn : Nat) :
    List (String × (CleanTable → Except PyError AnalysisResult)) :=
  [("analyze_categories", analyze_categories),
   ("analyze_online_orders", analyze_online_orders),
   ("review_distribution", review_distribution),
   ("popular_dishes_by_category", popular_dishes_by_category),
   ("top_reviewed_restaurant", top_reviewed_restaurant),
   ("analyze_category_combinations", analyze_category_combinations),
   ("top_restaurants_by_category", fun d => top_restaurants_by_category d topn)]

/-- `execute_analyses_sequential` of `main.py`: run every catalog entry in
order; the per-iteration `try/except Exception` turns an operation's
exception into a logged entry instead of aborting the loop, so each entry's
outcome is recorded and the loop always reaches the next entry. -/
def execute_analyses_sequential (df : CleanTable) (topn : Nat) :
    List (String × Except PyError AnalysisResult) :=
  (analysisCatalog topn).map (fun p => (p.1, p.2 df))

/-- Dedup keeping the first occurrence of each value, in original order. -/
def firstDedup : List String → List String
  | [] => []
  | x :: xs => x :: (firstDedup xs).filter (fun y => !(y == x))

/-- Modelled from the spec claim for `popular_dish_by_category`, which says
ties among equally frequent values are broken by the *first-encountered*
value in original row order: among the values of maximal multiplicity, take
the one whose first occurrence comes earliest. -/
def specFirstEncounteredMode? (l : List String) : Option String :=
  ((firstDedup l).filter
    (fun v => l.all (fun w => decide (l.count w ≤ l.count v)))).head?

/-! ## Concrete tables used in the claim analyses -/

/-- The raw table exhibiting C10: the online-order column holds the number
`1`, a scalar with no `.strip` attribute. -/
def exRawIntOnline : RawTable :=
  { nrows := 1, numberOfReview? := some [.str "5"],
    onlineOrder? := some [.int 1], catagory? := some [.str "x"],
    popularFood? := none, title? := none,
    reveiwComment? := none, reviewComment? := none }

/-- A conformant post-cleaning frame used to witness the no-op half of the
idempotence claim. -/
def exDynConformant : DynTable :=
  { numberOfReview := { dtype := .intDt, vals := [.int 3, .int 0] }
    catagory := { dtype := .objDt, vals := [.str "A", .str "B"] }
    onlineOrder? := some { dtype := .boolDt, vals := [.bool true, .bool false] } }

/-- Canonical table whose `Title` column is absent, so
`top_restaurants_by_category` raises `KeyError` while the six other
operations run. -/
def exTableNoTitle : CleanTable :=
  { numberOfReview := [1], onlineOrder := [true], catagory := ["A"],
    popularFood? := none, title? := none, reviewComment? := none }

/-- Canonical table with two categories of equal summed review count. -/
def exTableTies : CleanTable :=
  { numberOfReview := [5, 5], onlineOrder := [false, false],
    catagory := ["A", "B"], popularFood? := none, title? := none,
    reviewComment? := none }

/-- Canonical table with categories "A" (1 review) and "B" (3 reviews). -/
def exTableShares : CleanTable :=
  { numberOfReview := [1, 3], onlineOrder := [false, false],
    catagory := ["A", "B"], popularFood? := none, title? := none,
    reviewComment? := none }

/-- Raw table whose review-count column holds the numeric string "-5". -/
def exRawNegative : RawTable :=
  { nrows := 1, numberOfReview? := some [.str "-5"],
    onlineOrder? := some [.str "No"], catagory? := some [.str "x"],
    popularFood? := none, title? := none,
    reveiwComment? := none, reviewComment? := none }

/-- Raw table matching the spec's own scenario: a thousands-separated count,
an unparsable count and a missing count. -/
def exRawCounts : RawTable :=
  { nrows := 3,
    numberOfReview? := some [.str "1,200", .str "bad", .na],
    onlineOrder? := some [.str "Yes", .str "No", .str "No"],
    catagory? := some [.str "Italian", .str "Italian", .str "Thai"],
    popularFood? := none, title? := none,
    reveiwComment? := none, reviewComment? := none }

/-- The canonical table `clean_data` produces from `exRawCounts`. -/
def exCleanCounts : CleanTable :=
  { numberOfReview := [1200, 0, 0], onlineOrder := [true, false, false],
    catagory := ["Italian", "Italian", "Thai"],
    popularFood? := none, title? := none, reviewComment? := none }

/-- Raw table with the online-order column present: a padded "Yes", a "no",
and a missing value. -/
def exRawOnline : RawTable :=
  { nrows := 3, numberOfReview? := some [.str "1", .str "2", .str "3"],
    onlineOrder? := some [.str " Yes ", .str "no", .na],
    catagory? := some [.str "a", .str "b", .str "c"],
    popularFood? := none, title? := none,
    reveiwComment? := none, reviewComment? := none }

/-- The canonical table `clean_data` produces from `exRawOnline`. -/
def exCleanOnline : CleanTable :=
  { numberOfReview := [1, 2, 3], onlineOrder := [true, false, false],
    catagory := ["a", "b", "c"], popularFood? := none, title? := none,
    reviewComment? := none }

/-- Raw table with the online-order column entirely absent. -/
def exRawOnlineAbsent : RawTable :=
  { nrows := 2, numberOfReview? := some [.str "1", .str "2"],
    onlineOrder? := none,
    catagory? := some [.str "a", .str "b"],
    popularFood? := none, title? := none,
    reveiwComment? := none, reviewComment? := none }

/-- Canonical table with one category whose two popular-food values are
equally frequent; "b" comes first in row order, "a" is smaller. -/
def exTableDishTie : CleanTable :=
  { numberOfReview := [0, 0], onlineOrder := [false, false],
    catagory := ["A", "A"], popularFood? := some [some "b", some "a"],
    title? := none, reviewComment? := none }

/-- Canonical table without the optional popular-food column. -/
def exTableDishAbsent : CleanTable :=
  { numberOfReview := [7], onlineOrder := [false], catagory := ["A"],
    popularFood? := none, title? := none, reviewComment? := none }

/-- Canonical table with the popular-food column present; category "B" has
only a missing value. -/
def exTableDishPresent : CleanTable :=
  { numberOfReview := [1, 2, 3], onlineOrder := [false, false, false],
    catagory := ["A", "A", "B"], popularFood? := some [some "x", some "x", none],
    title? := none, reviewComment? := none }

/-- Canonical table in which no restaurant offers online ordering. -/
def exTableNoTrue : CleanTable :=
  { numberOfReview := [4, 6], onlineOrder := [false, false],
    catagory := ["A", "B"], popularFood? := none, title? := none,
    reviewComment? := none }

/-! ## Helper lemmas -/

theorem charLeB_refl : ∀ cs : List Char, charLeB cs cs = true := by
  intro cs
  induction cs with
  | nil => rfl
  | cons a as ih => simp [charLeB, ih]

theorem strLeB_refl (s : String) : strLeB s s = true :=
  charLeB_refl s.data

theorem charLeB_total : ∀ as bs : List Char,
    charLeB as bs = true ∨ charLeB bs as = true := by
  intro as
  induction as with
  | nil => intro bs; left; rfl
  | cons a as ih =>
    intro bs
    cases bs with
    | nil => right; rfl
    | cons b bs' =>
      by_cases hab : a < b
      · left; simp [charLeB, hab]
      · by_cases hba : b < a
        · right; simp [charLeB, hba, asymm hba]
        · rcases ih bs' with h | h
          · left; simp [charLeB, hab, hba, h]
          · right; simp [charLeB, hab, hba, h]

theorem charLeB_trans : ∀ as bs cs : List Char,
    charLeB as bs = true → charLeB bs cs = true → charLeB as cs = true := by
  intro as
  induction as with
  | nil => intro bs cs _ _; rfl
  | cons a as ih =>
    intro bs cs h1 h2
    cases bs with
    | nil => simp [charLeB] at h1
    | cons b bs' =>
      cases cs with
      | nil => simp [charLeB] at h2
      | cons c cs' =>
        simp only [charLeB] at h1 h2 ⊢
        by_cases hab : a < b
        · by_cases hbc : b < c
          · simp [lt_trans hab hbc]
          · by_cases hcb : c < b
            · rw [if_neg hbc, if_pos hcb] at h2
              cases h2
            · have hbceq : b = c := le_antisymm (not_lt.mp hcb) (not_lt.mp hbc)
              subst hbceq
              simp [hab]
        · by_cases hba : b < a
          · rw [if_neg hab, if_pos hba] at h1
            cases h1
          · have habeq : a = b := le_antisymm (not_lt.mp hba) (not_lt.mp hab)
            subst habeq
            rw [if_neg hab, if_neg hba] at h1
            by_cases hac : a < c
            · simp [hac]
            · by_cases hca : c < a
              · rw [if_neg hac, if_pos hca] at h2
                cases h2
              · rw [if_neg hac, if_neg hca] at h2 ⊢
                exact ih bs' cs' h1 h2

instance : IsTotal String (fun a b => strLeB a b = true) :=
  ⟨fun a b => charLeB_total a.data b.data⟩

instance : IsTrans String (fun a b => strLeB a b = true) :=
  ⟨fun a b c h1 h2 => charLeB_trans a.data b.data c.data h1 h2⟩

instance : IsTotal (String × Int) (fun a b => b.2 ≤ a.2) :=
  ⟨fun a b => le_total b.2 a.2⟩

instance : IsTrans (String × Int) (fun a b => b.2 ≤ a.2) :=
  ⟨fun _ _ _ h1 h2 => le_trans h2 h1⟩

theorem applyE_ok_length {α β : Type} {f : α → Except PyError β} :
    ∀ {l : List α} {ys : List β}, applyE f l = .ok ys → ys.length = l.length := by
  intro l
  induction l with
  | nil =>
    intro ys h
    simp only [applyE] at h
    cases h
    rfl
  | cons a as ih =>
    intro ys h
    simp only [applyE] at h
    cases hfa : f a with
    | error e => rw [hfa] at h; cases h
    | ok b =>
      rw [hfa] at h
      cases has : applyE f as with
      | error e => rw [has] at h; cases h
      | ok bs =>
        rw [has] at h
        cases h
        simp [ih has]

theorem applyE_cleanOnline {col : List PyVal} {ys : List Bool}
    (h : applyE cleanOnlineVal col = .ok ys) :
    ∀ i, i < col.length →
      (ys.getD i false = true ↔
        ∃ s, col.getD i PyVal.na = PyVal.str s ∧ pyLower (pyStrip s) = "yes") := by
  induction col generalizing ys with
  | nil => intro i hi; cases hi
  | cons a as ih =>
    simp only [applyE] at h
    cases hfa : cleanOnlineVal a with
    | error e => rw [hfa] at h; cases h
    | ok b =>
      rw [hfa] at h
      cases has : applyE cleanOnlineVal as with
      | error e => rw [has] at h; cases h
      | ok bs =>
        rw [has] at h
        cases h
        intro i hi
        cases i with
        | zero =>
          cases a with
          | str s =>
            simp only [cleanOnlineVal] at hfa
            cases hfa
            simp [List.getD, beq_iff_eq]
          | na =>
            simp only [cleanOnlineVal] at hfa
            cases hfa
            simp [List.getD]
            decide
          | int n => simp [cleanOnlineVal] at hfa
          | bool b' => simp [cleanOnlineVal] at hfa
        | succ j =>
          have hj : j < as.length := by simpa using hi
          simpa using ih has j hj

theorem exists_count_max {l : List String} (hl : l ≠ []) :
    ∃ v ∈ l, ∀ w ∈ l, l.count w ≤ l.count v := by
  cases hm : l.argmax (fun v => l.count v) with
  | none => exact absurd (List.argmax_eq_none.mp hm) hl
  | some v =>
    exact ⟨v, List.argmax_mem hm, fun w hw => List.le_of_mem_argmax hw hm⟩

theorem modeFirst?_spec {l : List String} {m : String} (h : modeFirst? l = some m) :
    m ∈ l ∧ (∀ w ∈ l, l.count w ≤ l.count m) ∧
      (∀ w ∈ l, l.count w = l.count m → strLeB m w = true) := by
  unfold modeFirst? at h
  generalize hc : l.dedup.filter
      (fun v => l.all (fun w => decide (l.count w ≤ l.count v))) = cands at h
  have hperm : (List.insertionSort (fun a b : String => strLeB a b = true) cands).Perm cands :=
    List.perm_insertionSort _ cands
  have hsorted : List.Sorted (fun a b : String => strLeB a b = true)
      (List.insertionSort (fun a b : String => strLeB a b = true) cands) :=
    List.sorted_insertionSort _ cands
  cases hs : List.insertionSort (fun a b : String => strLeB a b = true) cands with
  | nil => rw [hs] at h; cases h
  | cons a t =>
    rw [hs] at h hperm hsorted
    have ham : a = m := by simpa using h
    subst ham
    have hmem_iff : ∀ {x : String}, x ∈ a :: t ↔ x ∈ cands :=
      fun {x} => hperm.mem_iff
    have ha_cands : a ∈ cands := hmem_iff.mp (List.mem_cons_self _ _)
    rw [← hc] at ha_cands
    have ha_ded : a ∈ l.dedup := (List.mem_filter.mp ha_cands).1
    have ha_l : a ∈ l := List.mem_dedup.mp ha_ded
    have ha_max : ∀ w ∈ l, l.count w ≤ l.count a := by
      have := (List.mem_filter.mp ha_cands).2
      rw [List.all_eq_true] at this
      intro w hw
      exact of_decide_eq_true (this w hw)
    refine ⟨ha_l, ha_max, ?_⟩
    intro w hw hcw
    have hw_cands : w ∈ cands := by
      rw [← hc]
      refine List.mem_filter.mpr ⟨List.mem_dedup.mpr hw, ?_⟩
      rw [List.all_eq_true]
      intro u hu
      exact decide_eq_true (hcw ▸ ha_max u hu)
    rcases List.mem_cons.mp (hmem_iff.mpr hw_cands) with hwa | hwt
    · rw [hwa]
      exact strLeB_refl a
    · exact List.rel_of_sorted_cons hsorted w hwt

theorem modeFirst?_isSome {l : List String} (hl : l ≠ []) :
    ∃ m, modeFirst? l = some m := by
  obtain ⟨v, hv_mem, hv_max⟩ := exists_count_max hl
  have hv_cands : v ∈ l.dedup.filter
      (fun v => l.all (fun w => decide (l.count w ≤ l.count v))) := by
    refine List.mem_filter.mpr ⟨List.mem_dedup.mpr hv_mem, ?_⟩
    rw [List.all_eq_true]
    intro u hu
    exact decide_eq_true (hv_max u hu)
  have hv_s : v ∈ List.insertionSort (fun a b : String => strLeB a b = true)
      (l.dedup.filter (fun v => l.all (fun w => decide (l.count w ≤ l.count v)))) :=
    (List.perm_insertionSort _ _).mem_iff.mpr hv_cands
  unfold modeFirst?
  cases hs : List.insertionSort (fun a b : String => strLeB a b = true)
      (l.dedup.filter (fun v => l.all (fun w => decide (l.count w ≤ l.count v)))) with
  | nil => rw [hs] at hv_s; cases hv_s
  | cons a t => exact ⟨a, rfl⟩

theorem sum_map_share (T : Rat) :
    ∀ l : List Int,
      ((l.map (fun s : Int => ((s : Rat) / T) * 100)).sum) = ((l.sum : Rat) / T) * 100 := by
  intro l
  induction l with
  | nil => simp
  | cons x xs ih =>
    simp only [List.map_cons, List.sum_cons, ih]
    push_cast
    rw [add_div, add_mul]

theorem astypeBoolVal_idem (v : PyVal) :
    astypeBoolVal (astypeBoolVal v) = astypeBoolVal v := by
  cases v <;> rfl

theorem astypeBoolCol_idem (c : DynCol) :
    astypeBoolCol (astypeBoolCol c) = astypeBoolCol c := by
  unfold astypeBoolCol
  simp [List.map_map, Function.comp, astypeBoolVal_idem]

theorem clean_data_ok_iff {t : RawTable} {c : CleanTable} :
    clean_data t = .ok c ↔ cleanBody t = .ok c := by
  unfold clean_data
  cases h : cleanBody t <;> simp

theorem map_astypeBoolVal_of_bools :
    ∀ l : List PyVal, (∀ v ∈ l, ∃ b, v = PyVal.bool b) → l.map astypeBoolVal = l := by
  intro l h
  induction l with
  | nil => rfl
  | cons x xs ih =>
    obtain ⟨b, hb⟩ := h x (List.mem_cons_self _ _)
    subst hb
    simp only [List.map_cons, astypeBoolVal]
    rw [ih (fun v hv => h v (List.mem_cons_of_mem _ hv))]

/-! ## Claims -/

/-- C9: `ensure_required_columns` succeeds exactly when every required
column is present (it is a pure check returning nothing, so it cannot modify
the frame), and it raises a `DataProcessingError` exactly when at least one
required column is missing; the error's message is built from the full list
of missing required columns, not just the first. -/
theorem ensure_required_columns_schema_check (cols required : List String) :
    (ensure_required_columns cols required = .ok () ↔ ∀ c ∈ required, c ∈ cols) ∧
    ((∃ c ∈ required, c ∉ cols) ↔
      ensure_required_columns cols required
        = .error (.dataProcessingError (missingColumnsMessage
            (required.filter (fun c => !(cols.contains c)))))) := by
  unfold ensure_required_columns
  by_cases hm : (required.filter (fun c => !(cols.contains c))).isEmpty = true
  · have hnil : required.filter (fun c => !(cols.contains c)) = [] :=
      List.isEmpty_iff.mp hm
    have hall : ∀ c ∈ required, c ∈ cols := by
      intro c hc
      simpa using List.filter_eq_nil_iff.mp hnil c hc
    rw [if_pos hm]
    refine ⟨⟨fun _ => hall, fun _ => rfl⟩, ?_, ?_⟩
    · rintro ⟨c, hc, hnc⟩
      exact absurd (hall c hc) hnc
    · intro h
      exact absurd h (by simp)
  · have hne : required.filter (fun c => !(cols.contains c)) ≠ [] := by
      intro h
      rw [h] at hm
      exact hm rfl
    obtain ⟨c, hc⟩ := List.exists_mem_of_ne_nil _ hne
    have hcr : c ∈ required := (List.mem_filter.mp hc).1
    have hcn : c ∉ cols := by
      have := (List.mem_filter.mp hc).2
      simpa using this
    rw [if_neg hm]
    refine ⟨⟨fun h => absurd h (by simp), fun hall => absurd (hall c hcr) hcn⟩,
      fun _ => rfl, fun _ => ⟨c, hcr, hcn⟩⟩

/-- C10: `clean_data`'s `except` clauses rewrap only `KeyError` and
`ValueError` as `DataProcessingError`; on a raw table whose online-order
column holds a numeric scalar, the normalization lambda's `AttributeError`
escapes `clean_data` untranslated instead of being repaired to `false` or
reported as a cleaning error. -/
theorem clean_data_attributeError_escapes :
    clean_data exRawIntOnline
        = .error (.attributeError "int object has no attribute strip") ∧
    (∀ s, translateCleanError (.keyError s)
        = .dataProcessingError ("Missing expected column: " ++ s)) ∧
    (∀ s, translateCleanError (.valueError s)
        = .dataProcessingError ("Data conversion failure: " ++ s)) ∧
    (∀ s, translateCleanError (.attributeError s) = .attributeError s) ∧
    (∀ s, translateCleanError (.dataProcessingError s) = .dataProcessingError s) :=
  ⟨by decide, fun _ => rfl, fun _ => rfl, fun _ => rfl, fun _ => rfl⟩

theorem validateReviewCol_idem (c : DynCol) :
    validateReviewCol (validateReviewCol c) = validateReviewCol c := by
  by_cases h : isNumericDtype c.dtype = true
  · have hc : validateReviewCol c = c := by rw [validateReviewCol, if_pos h]
    rw [hc, hc]
  · have hc : validateReviewCol c
        = { dtype := .intDt, vals := c.vals.map reCoerceReviewVal } := by
      rw [validateReviewCol, if_neg h]
    rw [hc]
    simp [validateReviewCol, isNumericDtype]

theorem validateCatagoryCol_idem (c : DynCol) :
    validateCatagoryCol (validateCatagoryCol c) = validateCatagoryCol c := by
  by_cases h : isStringDtype c.dtype = true
  · have hc : validateCatagoryCol c = c := by rw [validateCatagoryCol, if_pos h]
    rw [hc, hc]
  · have hc : validateCatagoryCol c
        = { dtype := .objDt, vals := c.vals.map (fun v => .str (pyStr v)) } := by
      rw [validateCatagoryCol, if_neg h]
    rw [hc]
    simp [validateCatagoryCol, isStringDtype]

/-- C7: `validate_data_types` is idempotent — applied to its own output it
returns that output unchanged — and on a conformant canonical table
(integer-dtype review counts, string-dtype categories, boolean online-order
column) it is a no-op. -/
theorem validate_data_types_idempotent (t : DynTable) :
    validate_data_types (validate_data_types t) = validate_data_types t ∧
    (t.numberOfReview.dtype = .intDt → t.catagory.dtype = .objDt →
      (∀ c, t.onlineOrder? = some c →
        c.dtype = .boolDt ∧ ∀ v ∈ c.vals, ∃ b, v = PyVal.bool b) →
      validate_data_types t = t) := by
  constructor
  · show DynTable.mk (validateReviewCol (validateReviewCol t.numberOfReview))
        (validateCatagoryCol (validateCatagoryCol t.catagory))
        ((t.onlineOrder?.map astypeBoolCol).map astypeBoolCol)
      = DynTable.mk (validateReviewCol t.numberOfReview)
        (validateCatagoryCol t.catagory) (t.onlineOrder?.map astypeBoolCol)
    rw [validateReviewCol_idem, validateCatagoryCol_idem]
    congr 1
    cases t.onlineOrder? with
    | none => rfl
    | some c => simp [astypeBoolCol_idem]
  · intro h1 h2 h3
    show DynTable.mk (validateReviewCol t.numberOfReview)
        (validateCatagoryCol t.catagory) (t.onlineOrder?.map astypeBoolCol) = t
    have e1 : validateReviewCol t.numberOfReview = t.numberOfReview := by
      rw [validateReviewCol, if_pos (show isNumericDtype t.numberOfReview.dtype = true
        by rw [h1]; rfl)]
    have e2 : validateCatagoryCol t.catagory = t.catagory := by
      rw [validateCatagoryCol, if_pos (show isStringDtype t.catagory.dtype = true
        by rw [h2]; rfl)]
    have e3 : t.onlineOrder?.map astypeBoolCol = t.onlineOrder? := by
      cases hoo : t.onlineOrder? with
      | none => rfl
      | some c =>
        obtain ⟨hdt, hvals⟩ := h3 c hoo
        show some (astypeBoolCol c) = some c
        congr 1
        cases c with
        | mk cd cv =>
          simp only at hdt hvals ⊢
          subst hdt
          unfold astypeBoolCol
          simp only
          rw [map_astypeBoolVal_of_bools cv hvals]
    rw [e1, e2, e3]

theorem validate_data_types_idempotent_witness :
    validate_data_types exDynConformant = exDynConformant ∧
    validate_data_types (validate_data_types exDynConformant)
      = validate_data_types exDynConformant :=
  ⟨(validate_data_types_idempotent exDynConformant).2 rfl rfl
      (by
        intro c hc
        cases hc
        exact ⟨rfl, by decide⟩),
    (validate_data_types_idempotent exDynConformant).1⟩

/-- C3: whenever some catalog operation fails (its entry in the batch output
carries an error), the batch output nevertheless holds one entry per catalog
operation — the error was caught, recorded as that entry, and every other
operation's entry is that operation's own outcome on the same table. -/
theorem execute_analyses_fault_isolated (df : CleanTable) (topn : Nat)
    (nm : String) (e : PyError)
    (hfail : (nm, Except.error e) ∈ execute_analyses_sequential df topn) :
    (execute_analyses_sequential df topn).length = 7 ∧
    ∀ p ∈ analysisCatalog topn,
      (p.1, p.2 df) ∈ execute_analyses_sequential df topn := by
  constructor
  · simp [execute_analyses_sequential, analysisCatalog]
  · intro p hp
    exact List.mem_map_of_mem _ hp

theorem execute_analyses_fault_isolated_witness :
    ("top_restaurants_by_category", Except.error (PyError.keyError "Title"))
        ∈ execute_analyses_sequential exTableNoTitle 10 ∧
    ((execute_analyses_sequential exTableNoTitle 10).length = 7 ∧
      ∀ p ∈ analysisCatalog 10,
        (p.1, p.2 exTableNoTitle) ∈ execute_analyses_sequential exTableNoTitle 10) :=
  ⟨by decide,
    execute_analyses_fault_isolated exTableNoTitle 10
      "top_restaurants_by_category" (PyError.keyError "Title") (by decide)⟩

/-- C4 (amended): the `top_categories_by_reviews` series is sorted
descending by summed review count — non-strictly, since categories with
equal sums produce equal adjacent values — it reports at most 10 entries,
and the full sorted series is a permutation of the grouped
(category, sum) series, one pair per category.  The relative order of
categories with equal sums comes from the default `kind='quicksort'` and is
not guaranteed; every property proved here holds for any descending
reordering. -/
theorem top_categories_sorted (df : CleanTable) :
    List.Sorted (fun a b : String × Int => b.2 ≤ a.2) (top_categories_data df) ∧
    (top_categories_data df).length ≤ 10 ∧
    (sortValuesDesc (groupSumReviews df)).Perm (groupSumReviews df) := by
  refine ⟨?_, ?_, List.perm_insertionSort _ _⟩
  · exact List.Pairwise.sublist (List.take_sublist 10 _)
      (List.sorted_insertionSort _ _)
  · show ((sortValuesDesc (groupSumReviews df)).take 10).length ≤ 10
    rw [List.length_take]
    exact min_le_left _ _

/-- C4 counterexample: with two categories both summing to 5 the reported
series carries the values `[5, 5]` — whatever order the tied categories come
out in — so it is not *strictly* descending: equal sums make consecutive
entries equal. -/
theorem top_categories_not_strictly_sorted :
    (top_categories_data exTableTies).map Prod.snd = [5, 5] ∧
    ¬ List.Pairwise (fun a b : String × Int => b.2 < a.2)
        (top_categories_data exTableTies) := by
  constructor
  · decide
  · intro h
    rw [show top_categories_data exTableTies = [("A", 5), ("B", 5)] by decide] at h
    have := List.rel_of_pairwise_cons h (List.mem_cons_self _ _)
    exact lt_irrefl 5 this

/-- C6: with a positive grand total, `category_review_share` computes every
category's percentage against the sum over *all* categories (the series has
one entry per category, not 10), and those percentages sum to exactly 100
over the full category set (the floating-point computation agrees within
tolerance). -/
theorem category_shares_sum_100 (df : CleanTable) (h : 0 < totalReviews df) :
    ((categoryShares df).map (fun p => p.2.2)).sum = 100 ∧
    (categoryShares df).length = (groupSumReviews df).length ∧
    ∀ p ∈ categoryShares df,
      p.2.2 = ((p.2.1 : Rat) / (totalReviews df : Rat)) * 100 := by
  have hT : ((totalReviews df : Int) : Rat) ≠ 0 :=
    Int.cast_ne_zero.mpr (ne_of_gt h)
  refine ⟨?_, ?_, ?_⟩
  · have h1 : (categoryShares df).map (fun p => p.2.2)
        = ((sortValuesDesc (groupSumReviews df)).map (fun p => p.2)).map
            (fun s : Int => ((s : Rat) / (totalReviews df : Rat)) * 100) := by
      unfold categoryShares
      rw [List.map_map, List.map_map]
      rfl
    rw [h1, sum_map_share]
    rw [show ((sortValuesDesc (groupSumReviews df)).map (fun p => p.2)).sum
          = totalReviews df from rfl]
    rw [div_self hT, one_mul]
  · unfold categoryShares sortValuesDesc
    rw [List.length_map, List.length_insertionSort]
  · intro p hp
    unfold categoryShares at hp
    obtain ⟨q, _, hq⟩ := List.mem_map.mp hp
    rw [← hq]

theorem category_shares_sum_100_witness :
    0 < totalReviews exTableShares ∧
    (((categoryShares exTableShares).map (fun p => p.2.2)).sum = 100 ∧
      (categoryShares exTableShares).length = (groupSumReviews exTableShares).length ∧
      ∀ p ∈ categoryShares exTableShares,
        p.2.2 = ((p.2.1 : Rat) / (totalReviews exTableShares : Rat)) * 100) :=
  ⟨by decide, category_shares_sum_100 exTableShares (by decide)⟩

/-- C1 (amended): on every raw table `clean_data` accepts, the cleaned
review-count column is the elementwise repair of the source column — an
integer for every row, `0` whenever the source value is missing or does not
parse as a (possibly thousands-separated) number — and it has one entry per
source row, so no row is dropped for a non-numeric review count.  The
repaired value is *not* guaranteed non-negative: a negative numeric source
value is kept as-is. -/
theorem clean_review_counts (raw : RawTable) (t : CleanTable) (col : List PyVal)
    (hcol : raw.numberOfReview? = some col) (hok : clean_data raw = .ok t) :
    t.numberOfReview = col.map cleanReviewVal ∧
    t.numberOfReview.length = col.length ∧
    ∀ v ∈ col,
      (parseNumeric (removeCommas (pyStr v)) = none → cleanReviewVal v = 0) ∧
      (v = PyVal.na → cleanReviewVal v = 0) := by
  obtain ⟨nr, nrq, ooq, cq, pf, ti, ra, rb⟩ := raw
  rw [clean_data_ok_iff] at hok
  simp only at hcol
  subst hcol
  have hmain : t.numberOfReview = col.map cleanReviewVal := by
    cases ooq with
    | none =>
      cases cq with
      | none => simp [cleanBody] at hok
      | some ccol =>
        simp only [cleanBody] at hok
        injection hok with h
        rw [← h]
    | some ocol =>
      cases happ : applyE cleanOnlineVal ocol with
      | error e => simp [cleanBody, happ] at hok
      | ok oo =>
        cases cq with
        | none => simp [cleanBody, happ] at hok
        | some ccol =>
          simp only [cleanBody, happ] at hok
          injection hok with h
          rw [← h]
  refine ⟨hmain, by rw [hmain, List.length_map], ?_⟩
  intro v _
  constructor
  · intro hp
    unfold cleanReviewVal
    rw [hp]
  · intro hv
    subst hv
    decide

/-- C1 counterexample: `clean_data` accepts a table whose review count is
the numeric string "-5" and produces the row value `-5`, which is negative —
the claimed invariant `review_count ≥ 0` does not hold for every accepted
raw table. -/
theorem clean_review_counts_counterexample :
    clean_data exRawNegative = .ok
      { numberOfReview := [-5], onlineOrder := [false], catagory := ["x"],
        popularFood? := none, title? := none, reviewComment? := none } ∧
    ¬ (0 : Int) ≤ -5 :=
  ⟨by decide, by decide⟩

theorem clean_review_counts_witness :
    exCleanCounts.numberOfReview
        = [PyVal.str "1,200", PyVal.str "bad", PyVal.na].map cleanReviewVal ∧
    exCleanCounts.numberOfReview.length
        = [PyVal.str "1,200", PyVal.str "bad", PyVal.na].length ∧
    ∀ v ∈ [PyVal.str "1,200", PyVal.str "bad", PyVal.na],
      (parseNumeric (removeCommas (pyStr v)) = none → cleanReviewVal v = 0) ∧
      (v = PyVal.na → cleanReviewVal v = 0) :=
  clean_review_counts exRawCounts exCleanCounts
    [PyVal.str "1,200", PyVal.str "bad", PyVal.na] rfl (by decide)

/-- C2: on every raw table `clean_data` accepts with the online-order column
present, a cleaned row's flag is `true` exactly when the raw value is a
string that equals "yes" after stripping whitespace and lowering case; every
other accepted value — including a missing one — yields `false`.  When the
column is entirely absent (and the two mandatory columns are present),
cleaning still succeeds and every row's flag is `false`. -/
theorem clean_online_order (raw : RawTable) :
    (∀ col t, raw.onlineOrder? = some col → clean_data raw = .ok t →
      t.onlineOrder.length = col.length ∧
      ∀ i, i < col.length →
        (t.onlineOrder.getD i false = true ↔
          ∃ s, col.getD i PyVal.na = PyVal.str s ∧ pyLower (pyStrip s) = "yes")) ∧
    (raw.onlineOrder? = none → raw.numberOfReview?.isSome = true →
      raw.catagory?.isSome = true →
      ∃ t, clean_data raw = .ok t ∧ ∀ b ∈ t.onlineOrder, b = false) := by
  obtain ⟨nr, nrq, ooq, cq, pf, ti, ra, rb⟩ := raw
  constructor
  · intro col t hcol hok
    simp only at hcol
    subst hcol
    rw [clean_data_ok_iff] at hok
    cases nrq with
    | none => simp [cleanBody] at hok
    | some nrcol =>
      cases happ : applyE cleanOnlineVal col with
      | error e => simp [cleanBody, happ] at hok
      | ok oo =>
        cases cq with
        | none => simp [cleanBody, happ] at hok
        | some ccol =>
          simp only [cleanBody, happ] at hok
          injection hok with h
          have hoo : t.onlineOrder = oo := by rw [← h]
          rw [hoo]
          exact ⟨applyE_ok_length happ, applyE_cleanOnline happ⟩
  · intro hoo hnr hcq
    simp only at hoo hnr hcq
    subst hoo
    obtain ⟨nrcol, hnrcol⟩ := Option.isSome_iff_exists.mp hnr
    obtain ⟨ccol, hccol⟩ := Option.isSome_iff_exists.mp hcq
    subst hnrcol
    subst hccol
    refine ⟨{ numberOfReview := nrcol.map cleanReviewVal
              onlineOrder := List.replicate nr false
              catagory := ccol.map cleanCatagoryVal
              popularFood? := pf
              title? := ti
              reviewComment? := match ra with | some c => some c | none => rb },
        ?_, ?_⟩
    · rw [clean_data_ok_iff]
      rfl
    · intro b hb
      exact List.eq_of_mem_replicate hb

theorem clean_online_order_witness :
    (exCleanOnline.onlineOrder.length
        = [PyVal.str " Yes ", PyVal.str "no", PyVal.na].length ∧
      ∀ i, i < [PyVal.str " Yes ", PyVal.str "no", PyVal.na].length →
        (exCleanOnline.onlineOrder.getD i false = true ↔
          ∃ s, [PyVal.str " Yes ", PyVal.str "no", PyVal.na].getD i PyVal.na
                = PyVal.str s ∧
            pyLower (pyStrip s) = "yes")) ∧
    (∃ t, clean_data exRawOnlineAbsent = .ok t ∧ ∀ b ∈ t.onlineOrder, b = false) :=
  ⟨(clean_online_order exRawOnline).1
      [PyVal.str " Yes ", PyVal.str "no", PyVal.na] exCleanOnline rfl (by decide),
    (clean_online_order exRawOnlineAbsent).2 rfl rfl rfl⟩

/-- C5 counterexample: with the tie `["b", "a"]` the code reports "a" —
`Series.mode()` returns the tied values in ascending sorted order and
`.iloc[0]` takes the smallest — while the first-encountered value in
original row order is "b". -/
theorem popular_dish_tie_counterexample :
    popular_dishes_by_category exTableDishTie = .ok (.dishes [("A", "a")]) ∧
    specFirstEncounteredMode? ["b", "a"] = some "b" ∧
    ("a" : String) ≠ "b" :=
  ⟨by decide, by decide, by decide⟩

/-- C5 (amended): with the optional popular-food column absent the
operation reports unavailability instead of raising; with it present, each
category is mapped to a value of maximal frequency among the category's
(non-missing) popular-food values — but a tie is broken by the *smallest*
tied value in lexicographic order, not by first row-order occurrence — and a
category with no values gets "No data". -/
theorem popular_dishes_mode (df : CleanTable) :
    (df.popularFood? = none →
      popular_dishes_by_category df = .ok
        (.unavailable "Column 'Popular food' missing, cannot determine popular dishes.")) ∧
    (∀ food, df.popularFood? = some food →
      popular_dishes_by_category df = .ok (.dishes (popular_dishes_data df food)) ∧
      ∀ p ∈ popular_dishes_data df food,
        (groupFoodVals df food p.1 = [] → p.2 = "No data") ∧
        (groupFoodVals df food p.1 ≠ [] →
          p.2 ∈ groupFoodVals df food p.1 ∧
          (∀ w ∈ groupFoodVals df food p.1,
            (groupFoodVals df food p.1).count w
              ≤ (groupFoodVals df food p.1).count p.2) ∧
          (∀ w ∈ groupFoodVals df food p.1,
            (groupFoodVals df food p.1).count w = (groupFoodVals df food p.1).count p.2 →
              strLeB p.2 w = true))) := by
  constructor
  · intro h
    unfold popular_dishes_by_category
    rw [h]
  · intro food hf
    constructor
    · unfold popular_dishes_by_category
      rw [hf]
    · intro p hp
      unfold popular_dishes_data at hp
      obtain ⟨k, _, hpk⟩ := List.mem_map.mp hp
      rw [← hpk]
      simp only
      constructor
      · intro hnil
        rw [hnil]
        rfl
      · intro hne
        obtain ⟨m, hm⟩ := modeFirst?_isSome hne
        obtain ⟨hmem, hmax, hmin⟩ := modeFirst?_spec hm
        rw [hm]
        exact ⟨hmem, hmax, hmin⟩

theorem popular_dishes_mode_witness :
    (popular_dishes_by_category exTableDishAbsent = .ok
      (.unavailable "Column 'Popular food' missing, cannot determine popular dishes.")) ∧
    (popular_dishes_by_category exTableDishPresent
        = .ok (.dishes (popular_dishes_data exTableDishPresent
            [some "x", some "x", none])) ∧
      ∀ p ∈ popular_dishes_data exTableDishPresent [some "x", some "x", none],
        (groupFoodVals exTableDishPresent [some "x", some "x", none] p.1 = [] →
          p.2 = "No data") ∧
        (groupFoodVals exTableDishPresent [some "x", some "x", none] p.1 ≠ [] →
          p.2 ∈ groupFoodVals exTableDishPresent [some "x", some "x", none] p.1 ∧
          (∀ w ∈ groupFoodVals exTableDishPresent [some "x", some "x", none] p.1,
            (groupFoodVals exTableDishPresent [some "x", some "x", none] p.1).count w
              ≤ (groupFoodVals exTableDishPresent
                  [some "x", some "x", none] p.1).count p.2) ∧
          (∀ w ∈ groupFoodVals exTableDishPresent [some "x", some "x", none] p.1,
            (groupFoodVals exTableDishPresent [some "x", some "x", none] p.1).count w
                = (groupFoodVals exTableDishPresent
                    [some "x", some "x", none] p.1).count p.2 →
              strLeB p.2 w = true))) :=
  ⟨(popular_dishes_mode exTableDishAbsent).1 rfl,
    (popular_dishes_mode exTableDishPresent).2 [some "x", some "x", none] rfl⟩

/-- C8 (amended): the grouped means contain a bucket for an online-order
value exactly when some row carries that value — an empty group's bucket is
absent from the result rather than being given a defined mean — and the
operation only fails (the one-bucket or two-bucket value array broadcasts
against the two chart labels) when the table has no rows at all. -/
theorem online_order_buckets (df : CleanTable)
    (hlen : df.onlineOrder.length = df.numberOfReview.length) :
    ((∃ p ∈ onlineGroupMeans df, p.1 = false) ↔ false ∈ df.onlineOrder) ∧
    ((∃ p ∈ onlineGroupMeans df, p.1 = true) ↔ true ∈ df.onlineOrder) ∧
    (analyze_online_orders df
        = .error (.valueError
            "shape mismatch: objects cannot be broadcast to a single shape")
      ↔ df.onlineOrder = []) := by
  have hmapfst : (df.onlineOrder.zip df.numberOfReview).map Prod.fst
      = df.onlineOrder := List.map_fst_zip _ _ (le_of_eq hlen)
  have hmem : ∀ b : Bool, b ∈ df.onlineOrder ↔
      ∃ p ∈ df.onlineOrder.zip df.numberOfReview, p.1 = b := by
    intro b
    constructor
    · intro hb
      rw [← hmapfst] at hb
      obtain ⟨p, hp, hpb⟩ := List.mem_map.mp hb
      exact ⟨p, hp, hpb⟩
    · rintro ⟨p, hp, hpb⟩
      rw [← hmapfst]
      exact List.mem_map.mpr ⟨p, hp, hpb⟩
  have hgroup_empty : ∀ b : Bool,
      (((df.onlineOrder.zip df.numberOfReview).filter (fun p => p.1 == b)).map
        (fun p => p.2)).isEmpty = true ↔ b ∉ df.onlineOrder := by
    intro b
    rw [List.isEmpty_iff, List.map_eq_nil_iff, List.filter_eq_nil_iff]
    constructor
    · intro h hmemb
      obtain ⟨p, hp, hpb⟩ := (hmem b).mp hmemb
      have hpb' := h p hp
      simp only [beq_iff_eq] at hpb'
      exact hpb' hpb
    · intro h p hp
      simp only [beq_iff_eq]
      intro hpb
      exact h ((hmem b).mpr ⟨p, hp, hpb⟩)
  have hf_iff : (falseGroupVals df).isEmpty = true ↔ false ∉ df.onlineOrder :=
    hgroup_empty false
  have ht_iff : (trueGroupVals df).isEmpty = true ↔ true ∉ df.onlineOrder :=
    hgroup_empty true
  have hnil_iff : df.onlineOrder = [] ↔
      (false ∉ df.onlineOrder ∧ true ∉ df.onlineOrder) := by
    constructor
    · intro h
      rw [h]
      simp
    · rintro ⟨h1, h2⟩
      cases hoo : df.onlineOrder with
      | nil => rfl
      | cons b bs =>
        cases b
        · exact absurd (hoo ▸ List.mem_cons_self _ _) h1
        · exact absurd (hoo ▸ List.mem_cons_self _ _) h2
  refine ⟨?_, ?_, ?_⟩
  · unfold onlineGroupMeans
    by_cases hf : (falseGroupVals df).isEmpty = true
    · rw [if_pos hf]
      by_cases ht : (trueGroupVals df).isEmpty = true
      · rw [if_pos ht]
        simp only [List.nil_append]
        constructor
        · rintro ⟨p, hp, _⟩
          cases hp
        · intro h
          exact absurd h (hf_iff.mp hf)
      · rw [if_neg ht]
        simp only [List.nil_append]
        constructor
        · rintro ⟨p, hp, hp1⟩
          rcases List.mem_singleton.mp hp with rfl
          cases hp1
        · intro h
          exact absurd h (hf_iff.mp hf)
    · rw [if_neg hf]
      have hfmem : false ∈ df.onlineOrder := by
        by_contra hc
        exact hf (hf_iff.mpr hc)
      constructor
      · intro _
        exact hfmem
      · intro _
        exact ⟨(false, listMeanRat (falseGroupVals df)),
          List.mem_append_left _ (List.mem_singleton.mpr rfl), rfl⟩
  · unfold onlineGroupMeans
    by_cases ht : (trueGroupVals df).isEmpty = true
    · rw [if_pos ht]
      simp only [List.append_nil]
      constructor
      · rintro ⟨p, hp, hp1⟩
        by_cases hf : (falseGroupVals df).isEmpty = true
        · rw [if_pos hf] at hp
          cases hp
        · rw [if_neg hf] at hp
          rcases List.mem_singleton.mp hp with rfl
          cases hp1
      · intro h
        exact absurd h (ht_iff.mp ht)
    · rw [if_neg ht]
      have htmem : true ∈ df.onlineOrder := by
        by_contra hc
        exact ht (ht_iff.mpr hc)
      constructor
      · intro _
        exact htmem
      · intro _
        exact ⟨(true, listMeanRat (trueGroupVals df)),
          List.mem_append_right _ (List.mem_singleton.mpr rfl), rfl⟩
  · unfold analyze_online_orders
    by_cases hmeans : (onlineGroupMeans df).isEmpty = true
    · rw [if_pos hmeans]
      have hboth : (falseGroupVals df).isEmpty = true ∧
          (trueGroupVals df).isEmpty = true := by
        unfold onlineGroupMeans at hmeans
        by_cases hf : (falseGroupVals df).isEmpty = true
        · by_cases ht : (trueGroupVals df).isEmpty = true
          · exact ⟨hf, ht⟩
          · rw [if_pos hf, if_neg ht] at hmeans
            simp at hmeans
        · rw [if_neg hf] at hmeans
          simp at hmeans
      simp only [true_iff]
      exact hnil_iff.mpr ⟨hf_iff.mp hboth.1, ht_iff.mp hboth.2⟩
    · rw [if_neg hmeans]
      constructor
      · intro h
        cases h
      · intro h
        exfalso
        apply hmeans
        unfold onlineGroupMeans
        rw [if_pos (hf_iff.mpr (hnil_iff.mp h).1), if_pos (ht_iff.mpr (hnil_iff.mp h).2)]
        rfl

/-- C8 counterexample: with no `true` rows, the grouped means hold only the
`false` bucket; the `true` bucket is absent instead of being present with a
defined mean, refuting "both buckets are always produced". -/
theorem online_order_buckets_counterexample :
    (onlineGroupMeans exTableNoTrue).map Prod.fst = [false] ∧
    ¬ ∃ p ∈ onlineGroupMeans exTableNoTrue, p.1 = true :=
  ⟨by decide, by decide⟩

theorem online_order_buckets_witness :
    ((∃ p ∈ onlineGroupMeans exTableNoTrue, p.1 = false)
        ↔ false ∈ exTableNoTrue.onlineOrder) ∧
    ((∃ p ∈ onlineGroupMeans exTableNoTrue, p.1 = true)
        ↔ true ∈ exTableNoTrue.onlineOrder) ∧
    (analyze_online_orders exTableNoTrue
        = .error (.valueError
            "shape mismatch: objects cannot be broadcast to a single shape")
      ↔ exTableNoTrue.onlineOrder = []) :=
  online_order_buckets exTableNoTrue (by decide)
